import Mathlib

/-!
Shallow embedding of the price-tracking and alerting core of the
finance-bot repository (`exchanges.py`, `scheduler.py`, `handlers.py`).

Python floats are modelled as exact rationals (`ℚ`): every claim below is
about routing, fallback, comparison and state-update logic, not about
binary rounding.  A Python call that can either return a value or raise is
modelled as `Except String ℚ`; the `finally`/`except` control flow of each
source function is reproduced case by case.  Upstream providers are
modelled as explicit behaviour records (what the network/provider would
answer), so each adapter is a pure function of its behaviour.
-/

deriving instance DecidableEq for Except

namespace FinanceBot

/-- Python's built-in `abs` on a float, modelled on `ℚ`. -/
def pyAbs (q : ℚ) : ℚ := if q < 0 then -q else q

/-- Python's `str.upper()` for the ASCII ticker strings the bot handles:
uppercase every character. -/
def pyUpper (s : String) : String := String.mk (s.toList.map Char.toUpper)

/-- Python's `str.endswith(suf)`: the character list of `suf` is a suffix
of the character list of `s`. -/
def pyEndsWith (s suf : String) : Bool := suf.toList.isSuffixOf s.toList

/-- How the Binance provider behaves on one call:
whether `BinanceClient.create` succeeds, and — when it does — what
`get_symbol_ticker` yields (`.error` = the call raises, `.ok none` = a
falsy ticker payload, `.ok (some p)` = a payload whose `price` field
parses to `p`). -/
structure BinanceBehaviour where
  createOk : Bool
  fetch : Except String (Option ℚ)
deriving Repr, DecidableEq

/-- Result of one `get_binance_price` call: what the function returns or
raises, and whether `close_connection` ran (connection teardown). -/
structure BinanceOutcome where
  result : Except String ℚ
  closed : Bool
deriving Repr, DecidableEq

/-- Embedding of `exchanges.get_binance_price` (exchanges.py:7-16).
The source builds `client` inside the `try:`.  When
`BinanceClient.create` raises, the `except` block prepares `return 0.0`,
but the `finally:` block then evaluates `client.close_connection()` with
`client` unbound, so an `UnboundLocalError` replaces the return and no
teardown happens.  When the client is constructed, every later failure is
caught and `0.0` returned, and the connection is closed. -/
def get_binance_price (b : BinanceBehaviour) : BinanceOutcome :=
  if b.createOk then
    match b.fetch with
    | .ok (some p) => { result := .ok p, closed := true }
    | .ok none => { result := .ok 0, closed := true }
    | .error _ => { result := .ok 0, closed := true }
  else
    { result := .error "UnboundLocalError: client", closed := false }

/-- How the Tinkoff provider behaves on one call: whether any step inside
the `try:` raises, and the share list `(ticker, last order-book price)`
the API would return. -/
structure TinkoffBehaviour where
  raises : Bool
  shares : List (String × ℚ)
deriving Repr, DecidableEq

/-- Embedding of `exchanges.get_tinkoff_price` (exchanges.py:42-53): scan
the share list for a ticker equal to the query uppercased; return its
order-book price, `0.0` when no instrument matches, and `0.0` on any
raised provider error (the function catches `Exception` and never
raises). -/
def get_tinkoff_price (b : TinkoffBehaviour) (ticker : String) : ℚ :=
  if b.raises then 0
  else
    match b.shares.find? (fun s => s.1 == pyUpper ticker) with
    | some s => s.2
    | none => 0

/-- How the MOEX endpoint behaves on one call: whether the HTTP exchange
raises, and the `marketdata` price when the JSON has that key. -/
structure MoexBehaviour where
  raises : Bool
  marketdata : Option ℚ
deriving Repr, DecidableEq

/-- Embedding of `exchanges.get_moex_price` (exchanges.py:31-40): the
quoted price, `0.0` when the payload has no `marketdata`, `0.0` on any
raised error (catches `Exception`, never raises). -/
def get_moex_price (b : MoexBehaviour) : ℚ :=
  if b.raises then 0
  else
    match b.marketdata with
    | some p => p
    | none => 0

/-- One snapshot of all upstream providers, used by a single resolution. -/
structure World where
  binance : BinanceBehaviour
  tinkoff : TinkoffBehaviour
  moex : MoexBehaviour
deriving Repr, DecidableEq

/-- The crypto quote-currency endings from `exchanges.py:57`. -/
def cryptoSuffixes : List String := ["USDT", "BTC", "ETH"]

/-- Embedding of `any(ticker.endswith(ext) for ext in ("USDT", "BTC", "ETH"))`. -/
def isCryptoSymbol (ticker : String) : Bool :=
  cryptoSuffixes.any (fun ext => pyEndsWith ticker ext)

/-- The `try: return await get_tinkoff_price(ticker)` call inside
`get_price`: `get_tinkoff_price` catches every provider error itself, so
the call always returns a value. -/
def tinkoffCall (w : World) (ticker : String) : Except String ℚ :=
  .ok (get_tinkoff_price w.tinkoff ticker)

/-- Embedding of `exchanges.get_price` (exchanges.py:55-63): crypto
symbols go to Binance alone; every other symbol is answered by the
Tinkoff call, with MOEX consulted only when that call raises (which its
own internal catch-all prevents).  A Tinkoff result of `0.0` is returned
as-is. -/
def get_price (w : World) (ticker : String) : Except String ℚ :=
  if isCryptoSymbol ticker then (get_binance_price w.binance).result
  else
    match tinkoffCall w ticker with
    | .ok p => .ok p
    | .error _ => .ok (get_moex_price w.moex)

/-- One element of a user's `tracked_tickers` JSON list.  Each dict key
that may be absent is an `Option`; `threshold` is read with default `5`
(`item.get("threshold", 5)`, scheduler.py:63). -/
structure TrackedItem where
  ticker : Option String
  threshold : Option ℚ
  last_price : Option ℚ
  added_at : Option String
  updated_at : Option String
deriving Repr, DecidableEq

/-- Embedding of `ticker = item.get("ticker"); if not ticker: continue`
(scheduler.py:62-66): a missing key or an empty string is falsy and the
item is skipped. -/
def tickerKey (item : TrackedItem) : Option String :=
  match item.ticker with
  | none => none
  | some t => if t = "" then none else some t

/-- The data of one fired alert line
`f"🚨 {ticker}: {change:.2f}% ({last_price:.2f} → {current_price:.2f})"`
(scheduler.py:78-81).  The record keeps the values the f-string
interpolates; the decimal rendering itself is not modelled (no claim
depends on it). -/
structure AlertLine where
  ticker : String
  change : ℚ
  last : ℚ
  current : ℚ
deriving Repr, DecidableEq

/-- Result of processing one tracked item on one tick: the item as left
in the list, and the alert appended for it, if any. -/
structure StepResult where
  item : TrackedItem
  alert : Option AlertLine
deriving Repr, DecidableEq

/-- Embedding of the per-item body of `check_price_alerts`
(scheduler.py:62-85).  `resolve` stands for `exchanges.get_price`, which
either returns a float or raises.  The `try ... except` around the body
means: a raised resolution error, or the `ZeroDivisionError` raised by
the change formula when the stored `last_price` is `0`, leaves the item
untouched and produces no alert.  A first observation stores the current
price and skips alerting; otherwise the change is computed, an alert is
appended when `change >= threshold`, and `last_price` is overwritten. -/
def checkItem (resolve : String → Except String ℚ) (item : TrackedItem) :
    StepResult :=
  match tickerKey item with
  | none => { item := item, alert := none }
  | some t =>
    match resolve t with
    | .error _ => { item := item, alert := none }
    | .ok current =>
      match item.last_price with
      | none => { item := { item with last_price := some current }, alert := none }
      | some last =>
        if last = 0 then { item := item, alert := none }
        else
          let change := pyAbs ((current - last) / last * 100)
          { item := { item with last_price := some current },
            alert :=
              if item.threshold.getD 5 ≤ change then
                some { ticker := t, change := change, last := last, current := current }
              else none }

/-- What one tick of `check_price_alerts` does to one user
(scheduler.py:59-91): every item is processed independently, the
processed items replace the list, and the fired alert lines accumulate in
list order. -/
structure UserTickResult where
  tickers : List TrackedItem
  alerts : List AlertLine
deriving Repr, DecidableEq

/-- Per-user embedding of `check_price_alerts` (scheduler.py:59-91). -/
def check_price_alerts_user (resolve : String → Except String ℚ)
    (items : List TrackedItem) : UserTickResult :=
  { tickers := items.map (fun i => (checkItem resolve i).item),
    alerts := items.filterMap (fun i => (checkItem resolve i).alert) }

/-- Embedding of `if alerts: await application.bot.send_message(...)`
(scheduler.py:87-91): a notification goes out iff some alert fired. -/
def alertMessageSent (resolve : String → Except String ℚ)
    (items : List TrackedItem) : Bool :=
  (check_price_alerts_user resolve items).alerts ≠ []

/-- Iterate the per-item step over a sequence of ticks, each tick seeing
its own resolution behaviour. -/
def runTicks (resolves : List (String → Except String ℚ))
    (item : TrackedItem) : TrackedItem :=
  resolves.foldl (fun it r => (checkItem r it).item) item

/-- Numeric value of a digit list read left to right. -/
def digitsToNat (cs : List Char) : ℕ :=
  cs.foldl (fun n c => 10 * n + (c.toNat - 48)) 0

/-- Models Python `float(s)` on the argument shapes the `/track` command
receives: an optional sign followed by a plain decimal literal (`"5"`,
`"-7.5"`, `".5"`, `"5."`).  On any other token — in particular the word
`"remove"` — Python raises `ValueError`, modelled as `none`.
This is the unsigned core; `parseFloat` adds the optional sign. -/
def parseFloatCore (cs : List Char) : Option ℚ :=
  let intPart := cs.takeWhile Char.isDigit
  match cs.dropWhile Char.isDigit with
  | [] =>
    if intPart.isEmpty then none
    else some (digitsToNat intPart)
  | '.' :: frac =>
    if frac.all Char.isDigit && (!intPart.isEmpty || !frac.isEmpty) then
      some (digitsToNat intPart + digitsToNat frac / 10 ^ frac.length)
    else none
  | _ => none

/-- Sign handling of `parseFloatCore`; see `parseFloat`'s doc comment. -/
def parseFloat (s : String) : Option ℚ :=
  match s.toList with
  | '-' :: rest => (parseFloatCore rest).map (fun q => -q)
  | '+' :: rest => parseFloatCore rest
  | cs => parseFloatCore cs

/-- The replacement dict built when the symbol is already tracked
(handlers.py:187-192): it has `updated_at` and *no* `added_at` key. -/
def retrackEntry (ticker : String) (threshold current : ℚ) (now : String) :
    TrackedItem :=
  { ticker := some ticker, threshold := some threshold,
    last_price := some current, added_at := none, updated_at := some now }

/-- The dict appended for a newly tracked symbol (handlers.py:194-199):
it has `added_at` and no `updated_at` key. -/
def newEntry (ticker : String) (threshold current : ℚ) (now : String) :
    TrackedItem :=
  { ticker := some ticker, threshold := some threshold,
    last_price := some current, added_at := some now, updated_at := none }

/-- Embedding of `next((i for i, t in enumerate(tickers) if t["ticker"] == ticker), None)`
(handlers.py:181-184): index of the first entry for the symbol. -/
def findTickerIdx : List TrackedItem → String → Option ℕ
  | [], _ => none
  | t :: ts, tk =>
    if t.ticker == some tk then some 0 else (findTickerIdx ts tk).map (· + 1)

/-- The list update of handlers.py:180-201: replace the found entry in
place, else append a fresh one. -/
def applyTrack (ts : List TrackedItem) (tk : String) (threshold current : ℚ)
    (now : String) : List TrackedItem :=
  match findTickerIdx ts tk with
  | some i => ts.set i (retrackEntry tk threshold current now)
  | none => ts ++ [newEntry tk threshold current now]

/-- Embedding of `ticker = context.args[0].upper()` (handlers.py:157). -/
def trackSymbol (args : List String) : String := pyUpper (args.headD "")

/-- Embedding of `threshold = float(context.args[1]) if len(args) > 1 else 5.0`
(handlers.py:158); `none` models the raised `ValueError`. -/
def trackThresholdArg (rest : List String) : Option ℚ :=
  match rest with
  | [] => some 5
  | arg1 :: _ => parseFloat arg1

/-- Everything one `/track` invocation reads: the command arguments, the
requesting user's authentication state and tracked list, the wall clock
(`datetime.now().isoformat()`), and the behaviour of
`exchanges.get_price`. -/
structure TrackCtx where
  args : List String
  authenticated : Bool
  tickers : List TrackedItem
  now : String
  resolve : String → Except String ℚ

/-- Observable outcome of one `/track` invocation: which reply path was
taken and, on success, the new tracked list. -/
inductive TrackOutcome where
  | usage
  | genericError
  | notAuthenticated
  | priceError
  | tracked (tickers : List TrackedItem)
deriving Repr, DecidableEq

/-- Embedding of `handlers.track` (handlers.py:147-212).
`float(context.args[1])` runs before any list manipulation; when it
raises (`parseFloat` = `none`) the outer `except` replies with the
generic error and the tracked list is untouched — there is no code path
that reads a `"remove"` token.  Authentication is checked next, then the
price is fetched (a raised error replies "could not fetch"), and finally
the list is updated via `applyTrack`. -/
def track (ctx : TrackCtx) : TrackOutcome :=
  match ctx.args with
  | [] => .usage
  | arg0 :: rest =>
    let ticker := pyUpper arg0
    match trackThresholdArg rest with
    | none => .genericError
    | some threshold =>
      if ctx.authenticated then
        match ctx.resolve ticker with
        | .error _ => .priceError
        | .ok current =>
          .tracked (applyTrack ctx.tickers ticker threshold current ctx.now)
      else .notAuthenticated

/-- A user's `subscriptions` dict as the digest reads it: each category
key may be absent (`subscriptions.get(...)` of a missing key is falsy). -/
structure DigestUser where
  crypto : Option Bool
  stocks : Option Bool
  news : Option Bool
deriving Repr, DecidableEq

/-- Embedding of the digest user selection, `subscriptions` not equal to the empty dict (scheduler.py:20-22):
a user is selected for the digest when the dict has at least one key. -/
def digestSelected (u : DigestUser) : Bool :=
  !(u.crypto == none && u.stocks == none && u.news == none)

/-- Behaviour of the two benchmark fetches the digest performs:
`get_binance_price("BTCUSDT")` (which can raise, see `get_binance_price`)
and `get_moex_price("SBER")`. -/
structure DigestWorld where
  btc : Except String ℚ
  sber : Except String ℚ
deriving Repr, DecidableEq

/-- One line of the digest message: the Bitcoin line
`f"₿ Bitcoin: ${btc_price:.2f}"` or the Sberbank line
`f"🏦 Сбербанк: {sber_price:.2f} RUB"` with the interpolated price. -/
inductive DigestLine where
  | btcLine (price : ℚ)
  | sberLine (price : ℚ)
deriving Repr, DecidableEq

/-- Per-user embedding of `send_daily_summary` (scheduler.py:25-45): a
line per category in {crypto, stocks} whose flag is truthy and whose
fetch does not raise (a raised fetch is caught and logged, appending
nothing); the `news` flag is never consulted. -/
def send_daily_summary_user (u : DigestUser) (w : DigestWorld) :
    List DigestLine :=
  (match u.crypto.getD false, w.btc with
   | true, .ok p => [DigestLine.btcLine p]
   | _, _ => []) ++
  (match u.stocks.getD false, w.sber with
   | true, .ok p => [DigestLine.sberLine p]
   | _, _ => [])

/-- Embedding of `if summary: await application.bot.send_message(...)`
(scheduler.py:41-45): a digest message goes out iff some line exists. -/
def digestSent (u : DigestUser) (w : DigestWorld) : Bool :=
  send_daily_summary_user u w ≠ []

/-! Concrete instances used by the individual theorems below. -/

/-- A ticker whose stored `last_price` is `100`, threshold `5`. -/
def item100 : TrackedItem :=
  { ticker := some "SBER", threshold := some 5, last_price := some 100,
    added_at := some "2023-01-01T00:00:00", updated_at := none }

/-- A ticker at the alert boundary: threshold `5`, `last_price` `100`. -/
def itemB : TrackedItem :=
  { ticker := some "AAPL", threshold := some 5, last_price := some 100,
    added_at := none, updated_at := none }

/-- A freshly added ticker: no `last_price` yet, threshold `0` (the most
alert-prone threshold possible). -/
def itemF : TrackedItem :=
  { ticker := some "BTCUSDT", threshold := some 0, last_price := none,
    added_at := some "A", updated_at := none }

/-- A ticker whose stored `last_price` is the failure sentinel `0`. -/
def itemZ : TrackedItem :=
  { ticker := some "DLST", threshold := some 5, last_price := some 0,
    added_at := some "A", updated_at := none }

/-- A fully populated ticker used to exercise the raised-error skip. -/
def itemW1 : TrackedItem :=
  { ticker := some "GAZP", threshold := some 5, last_price := some 10,
    added_at := some "A", updated_at := some "U" }

/-- The provider snapshot of the repo's own `test_get_price_stocks`:
Tinkoff finds no instrument (its quote is `0`), MOEX quotes `250`. -/
def worldC2 : World :=
  { binance := { createOk := true, fetch := .ok none },
    tinkoff := { raises := false, shares := [] },
    moex := { raises := false, marketdata := some 250 } }

/-- A Binance call in which `BinanceClient.create` itself raises. -/
def binanceCreateFails : BinanceBehaviour :=
  { createOk := false, fetch := .ok none }

/-- The `/track BTCUSDT remove` invocation of the repo's own
`test_remove_tracked_ticker`, by an authenticated user who tracks
`BTCUSDT`. -/
def ctxRemove : TrackCtx :=
  { args := ["BTCUSDT", "remove"], authenticated := true,
    tickers := [{ ticker := some "BTCUSDT", threshold := some 5,
                  last_price := none, added_at := none, updated_at := none }],
    now := "T", resolve := fun _ => .ok 50000 }

/-- Re-tracking an already tracked symbol whose entry carries an
`added_at` timestamp. -/
def ctxRetrackW : TrackCtx :=
  { args := ["BTCUSDT"], authenticated := true,
    tickers := [{ ticker := some "BTCUSDT", threshold := some 5,
                  last_price := some 40000,
                  added_at := some "2023-01-01T00:00:00", updated_at := none }],
    now := "2024-01-01T00:00:00", resolve := fun _ => .ok 50000 }

/-- A lowercase `/track btcusdt` by a user already tracking `BTCUSDT`
(and one other symbol). -/
def ctxC6W : TrackCtx :=
  { args := ["btcusdt"], authenticated := true,
    tickers := [{ ticker := some "BTCUSDT", threshold := some 7,
                  last_price := some 40000, added_at := some "A", updated_at := none },
                { ticker := some "ETHUSDT", threshold := some 5,
                  last_price := some 2000, added_at := some "B", updated_at := none }],
    now := "T", resolve := fun _ => .ok 50000 }

/-- The tracked list `track ctxC6W` produces. -/
def tsC6W : List TrackedItem :=
  [{ ticker := some "BTCUSDT", threshold := some 5,
     last_price := some 50000, added_at := none, updated_at := some "T" },
   { ticker := some "ETHUSDT", threshold := some 5,
     last_price := some 2000, added_at := some "B", updated_at := none }]

/-- A user subscribed to `news` only. -/
def userNewsOnly : DigestUser :=
  { crypto := none, stocks := none, news := some true }

/-- A user subscribed to `crypto` only. -/
def userCryptoOnly : DigestUser :=
  { crypto := some true, stocks := none, news := none }

/-- Benchmark fetches that both succeed. -/
def digestWorldOk : DigestWorld := { btc := .ok 50000, sber := .ok 250 }

/-- Benchmark fetches in which the BTC adapter failed and returned the
`0.0` failure quote without raising. -/
def digestWorldBtcZero : DigestWorld := { btc := .ok 0, sber := .error "e" }

/-! Helper lemmas shared by the claim theorems. -/

/-- The helper `pyAbs` is the mathematical absolute value on `ℚ`. -/
theorem pyAbs_eq_abs (q : ℚ) : pyAbs q = |q| := by
  rcases le_or_lt 0 q with h | h
  · rw [pyAbs, if_neg (not_lt.mpr h), abs_of_nonneg h]
  · rw [pyAbs, if_pos h, abs_of_neg h]

/-- No branch of the per-item alert step touches `updated_at`. -/
theorem checkItem_updated_at (resolve : String → Except String ℚ)
    (item : TrackedItem) :
    (checkItem resolve item).item.updated_at = item.updated_at := by
  cases ht : tickerKey item with
  | none => simp [checkItem, ht]
  | some t =>
    cases hr : resolve t with
    | error e => simp [checkItem, ht, hr]
    | ok current =>
      cases hl : item.last_price with
      | none => simp [checkItem, ht, hr, hl]
      | some last =>
        by_cases h0 : last = 0 <;> simp [checkItem, ht, hr, hl, h0]

/-- No branch of the per-item alert step touches `added_at`. -/
theorem checkItem_added_at (resolve : String → Except String ℚ)
    (item : TrackedItem) :
    (checkItem resolve item).item.added_at = item.added_at := by
  cases ht : tickerKey item with
  | none => simp [checkItem, ht]
  | some t =>
    cases hr : resolve t with
    | error e => simp [checkItem, ht, hr]
    | ok current =>
      cases hl : item.last_price with
      | none => simp [checkItem, ht, hr, hl]
      | some last =>
        by_cases h0 : last = 0 <;> simp [checkItem, ht, hr, hl, h0]

/-- C2: the claim says a primary-equity quote of `0` (unresolved) makes
the resolver fall back to the secondary equity adapter, whose result is
final.  In the code the fallback is taken only when the Tinkoff call
*raises*, which its internal catch-all prevents: with Tinkoff finding no
instrument (quote `0`) and MOEX quoting `250`, `get_price "SBER"` returns
`0`, never consulting MOEX — exactly the scenario the repository's own
`test_get_price_stocks` expects to yield `250`. -/
theorem C2_equity_fallback_dead :
    get_price worldC2 "SBER" = .ok 0 ∧ get_moex_price worldC2.moex = 250 :=
  ⟨rfl, rfl⟩

/-- C5: `/track BTCUSDT remove` reaches `float("remove")`, which raises
`ValueError`; the outer handler answers with the generic error reply and
the tracked list is never touched.  There is no deletion path, contrary
to the claim and to the repository's own `test_remove_tracked_ticker`. -/
theorem C5_remove_token_generic_error :
    track ctxRemove = .genericError ∧ parseFloat "remove" = none :=
  ⟨rfl, rfl⟩

/-- C7: when `BinanceClient.create` raises, the `except` block prepares
`return 0.0` but the `finally:` block dereferences the unbound `client`,
so the adapter raises `UnboundLocalError` to its caller and no connection
teardown happens — contradicting both halves of the claim. -/
theorem C7_binance_create_failure_raises :
    (get_binance_price binanceCreateFails).result =
      .error "UnboundLocalError: client" ∧
    (get_binance_price binanceCreateFails).closed = false :=
  ⟨rfl, rfl⟩

/-- C1 counterexample: a resolution that fails by returning the absent
price `0.0` (no error raised) is *not* skipped: for a ticker with stored
`last_price = 100` and threshold `5`, the tick computes a 100% change,
fires an alert, and overwrites `last_price` with `0` — the claim says
the stored state is left unchanged and no alert is produced. -/
theorem C1_counterexample_zero_price_mutates :
    checkItem (fun _ => Except.ok 0) item100 =
      { item := { item100 with last_price := some 0 },
        alert := some { ticker := "SBER", change := 100, last := 100,
                        current := 0 } } ∧
    item100.last_price = some 100 := by
  refine ⟨?_, rfl⟩
  simp only [checkItem, tickerKey, item100, pyAbs]
  norm_num
  decide

/-- C1 as amended: only a *raised* resolution error makes the tick skip
the ticker with its state (including `last_price` and `updated_at`)
unchanged and no alert; `updated_at` is never modified by the alert tick
on any path; and the batch always continues — every item of the list is
processed regardless of other items' failures. -/
theorem C1_amended_raise_skips_state (item : TrackedItem) (t e : String)
    (resolve : String → Except String ℚ)
    (ht : tickerKey item = some t) (hr : resolve t = .error e) :
    checkItem resolve item = { item := item, alert := none } ∧
    (∀ (r : String → Except String ℚ) (it : TrackedItem),
      (checkItem r it).item.updated_at = it.updated_at) ∧
    (∀ (r : String → Except String ℚ) (items : List TrackedItem),
      (check_price_alerts_user r items).tickers.length = items.length) := by
  refine ⟨by simp [checkItem, ht, hr], checkItem_updated_at, ?_⟩
  intro r items
  simp [check_price_alerts_user]

/-- C1 witness: a concrete raised error leaves the fully populated
`itemW1` untouched and alert-free. -/
theorem C1_witness :
    checkItem (fun _ => Except.error "boom") itemW1 =
      { item := itemW1, alert := none } :=
  (C1_amended_raise_skips_state itemW1 "GAZP" "boom"
    (fun _ => Except.error "boom") rfl rfl).1

/-- C3: for a tracked ticker with a stored nonzero `last_price` and a
successfully resolved current price, an alert is appended iff
`abs((current - last) / last * 100)` is at least the threshold, and the
boundary case of exact equality fires (the comparison is inclusive).
The hypothesis `last ≠ 0` reflects that a stored `last_price` is a real
quote (`0` means "no data" per the spec's invariant; at `0` the change
formula raises — the situation of C8). -/
theorem C3_alert_iff_threshold (item : TrackedItem) (t : String)
    (resolve : String → Except String ℚ) (current last : ℚ)
    (ht : tickerKey item = some t) (hr : resolve t = .ok current)
    (hl : item.last_price = some last) (h0 : last ≠ 0) :
    ((checkItem resolve item).alert ≠ none ↔
      item.threshold.getD 5 ≤ |(current - last) / last * 100|) ∧
    (item.threshold.getD 5 = |(current - last) / last * 100| →
      (checkItem resolve item).alert ≠ none) := by
  have hmain : (checkItem resolve item).alert ≠ none ↔
      item.threshold.getD 5 ≤ |(current - last) / last * 100| := by
    simp only [checkItem, ht, hr, hl, if_neg h0, pyAbs_eq_abs]
    by_cases hc : item.threshold.getD 5 ≤ |(current - last) / last * 100| <;>
      simp [hc]
  exact ⟨hmain, fun heq => hmain.mpr (le_of_eq heq)⟩

/-- C3 witness: the boundary case.  `itemB` has threshold `5` and
`last_price = 100`; a resolved price of `105` is a change of exactly
`5%`, and the alert fires. -/
theorem C3_witness_boundary :
    (checkItem (fun _ => Except.ok 105) itemB).alert ≠ none :=
  (C3_alert_iff_threshold itemB "AAPL" (fun _ => Except.ok 105) 105 100
    rfl rfl rfl (by norm_num)).1.mpr (by norm_num [itemB])

/-- C4: on the first observation of a tracked ticker (`last_price`
absent), a successfully resolved price is stored as `last_price` and no
alert is produced, whatever the threshold (no hypothesis constrains
it). -/
theorem C4_first_observation_no_alert (item : TrackedItem) (t : String)
    (resolve : String → Except String ℚ) (current : ℚ)
    (ht : tickerKey item = some t) (hr : resolve t = .ok current)
    (hl : item.last_price = none) :
    checkItem resolve item =
      { item := { item with last_price := some current }, alert := none } := by
  simp [checkItem, ht, hr, hl]

/-- C4 witness: `itemF` has threshold `0` — the most alert-prone value —
yet its first observation stores the price and stays silent. -/
theorem C4_witness :
    checkItem (fun _ => Except.ok 777) itemF =
      { item := { itemF with last_price := some 777 }, alert := none } :=
  C4_first_observation_no_alert itemF "BTCUSDT" (fun _ => Except.ok 777)
    777 rfl rfl rfl

/-- C8: once a ticker's stored `last_price` is the failure sentinel `0`,
the change formula raises `ZeroDivisionError` on every tick in which a
price is resolved; the per-ticker handler catches it, so the record is
never updated and no alert is ever emitted — under *any* resolution
behaviour, over any sequence of future ticks, until the user re-tracks
the symbol. -/
theorem C8_zero_last_price_frozen (item : TrackedItem)
    (h : item.last_price = some 0) :
    (∀ resolve : String → Except String ℚ,
      checkItem resolve item = { item := item, alert := none }) ∧
    (∀ resolves : List (String → Except String ℚ),
      runTicks resolves item = item) := by
  have step : ∀ resolve : String → Except String ℚ,
      checkItem resolve item = { item := item, alert := none } := by
    intro resolve
    cases ht : tickerKey item with
    | none => simp [checkItem, ht]
    | some t =>
      cases hr : resolve t with
      | error e => simp [checkItem, ht, hr]
      | ok current => simp [checkItem, ht, hr, h]
  refine ⟨step, ?_⟩
  intro resolves
  induction resolves with
  | nil => rfl
  | cons r rs ih =>
    show runTicks rs (checkItem r item).item = item
    rw [step r]
    exact ih

/-- C8 witness: `itemZ` (stored `last_price = 0`) is left exactly as it
is by a successful tick and by a two-tick run mixing success and
failure. -/
theorem C8_witness :
    checkItem (fun _ => Except.ok 123) itemZ =
      { item := itemZ, alert := none } ∧
    runTicks [fun _ => Except.ok 1, fun _ => Except.error "down"] itemZ =
      itemZ :=
  ⟨(C8_zero_last_price_frozen itemZ rfl).1 _,
   (C8_zero_last_price_frozen itemZ rfl).2 _⟩

/-- Unfolding `applyTrack` over a cons cell: replace the head when it
carries the symbol, otherwise recurse on the tail. -/
theorem applyTrack_cons (t : TrackedItem) (ts : List TrackedItem)
    (tk : String) (q p : ℚ) (now : String) :
    applyTrack (t :: ts) tk q p now =
      if t.ticker == some tk then retrackEntry tk q p now :: ts
      else t :: applyTrack ts tk q p now := by
  by_cases h : t.ticker == some tk
  · simp [applyTrack, findTickerIdx, h]
  · simp only [applyTrack, findTickerIdx, h, if_false, Bool.false_eq_true]
    cases hfi : findTickerIdx ts tk with
    | none => simp [hfi]
    | some i => simp [hfi, List.set]

/-- Every ticker value of the updated list is a ticker value of the old
list or the tracked symbol itself. -/
theorem ticker_mem_applyTrack (ts : List TrackedItem) (tk : String)
    (q p : ℚ) (now : String) (x : Option String)
    (hx : x ∈ (applyTrack ts tk q p now).map TrackedItem.ticker) :
    x ∈ ts.map TrackedItem.ticker ∨ x = some tk := by
  induction ts with
  | nil =>
    right
    simpa [applyTrack, findTickerIdx, newEntry] using hx
  | cons t ts ih =>
    rw [applyTrack_cons] at hx
    by_cases h : t.ticker == some tk
    · rw [if_pos h] at hx
      rcases List.mem_cons.mp ((List.map_cons _ _ _ ▸ hx)) with h1 | h1
      · right; simpa [retrackEntry] using h1
      · left; exact List.mem_cons_of_mem _ h1
    · rw [if_neg h] at hx
      rcases List.mem_cons.mp ((List.map_cons _ _ _ ▸ hx)) with h1 | h1
      · left; exact h1 ▸ List.mem_cons_self _ _
      · rcases ih h1 with h2 | h2
        · left; exact List.mem_cons_of_mem _ h2
        · right; exact h2

/-- The `/track` list update preserves one-entry-per-symbol: replacing
the found entry keeps its (identical) symbol, and a fresh symbol is
appended only when absent. -/
theorem applyTrack_nodup (ts : List TrackedItem) (tk : String)
    (q p : ℚ) (now : String)
    (hu : (ts.map TrackedItem.ticker).Nodup) :
    ((applyTrack ts tk q p now).map TrackedItem.ticker).Nodup := by
  induction ts with
  | nil => simp [applyTrack, findTickerIdx, newEntry]
  | cons t ts ih =>
    rw [List.map_cons, List.nodup_cons] at hu
    obtain ⟨hnot, hnd⟩ := hu
    rw [applyTrack_cons]
    by_cases h : t.ticker == some tk
    · have heq : t.ticker = some tk := by simpa using h
      rw [if_pos h, List.map_cons, List.nodup_cons]
      exact ⟨show some tk ∉ _ from heq ▸ hnot, hnd⟩
    · have hne : t.ticker ≠ some tk := by simpa using h
      rw [if_neg h, List.map_cons, List.nodup_cons]
      refine ⟨fun hmem => ?_, ih hnd⟩
      rcases ticker_mem_applyTrack ts tk q p now t.ticker hmem with h1 | h1
      · exact hnot h1
      · exact hne h1

/-- Inverting a successful `/track`: the resulting list is `applyTrack`
of the previous list at the uppercased first argument, for the parsed
threshold and the resolved price. -/
theorem track_tracked_inv (ctx : TrackCtx) (ts' : List TrackedItem)
    (h : track ctx = .tracked ts') :
    ∃ q p : ℚ,
      ts' = applyTrack ctx.tickers (trackSymbol ctx.args) q p ctx.now := by
  unfold track at h
  cases hargs : ctx.args with
  | nil => rw [hargs] at h; cases h
  | cons a rest =>
    rw [hargs] at h
    dsimp only at h
    cases hq : trackThresholdArg rest with
    | none => rw [hq] at h; cases h
    | some q =>
      rw [hq] at h
      dsimp only at h
      by_cases hauth : ctx.authenticated
      · rw [if_pos hauth] at h
        cases hres : ctx.resolve (pyUpper a) with
        | error e => rw [hres] at h; cases h
        | ok p =>
          rw [hres] at h
          injection h with h'
          exact ⟨q, p, by rw [← h']; rfl⟩
      · rw [if_neg hauth] at h; cases h

/-- C6: a successful `/track` on a list with at most one entry per
symbol keeps that invariant, and when the symbol is already tracked at
index `i` the result replaces index `i` in place — same length, no
duplicate — with an entry carrying the symbol, a threshold and a
`last_price`. -/
theorem C6_track_preserves_uniqueness (ctx : TrackCtx)
    (ts' : List TrackedItem)
    (hu : (ctx.tickers.map TrackedItem.ticker).Nodup)
    (h : track ctx = .tracked ts') :
    (ts'.map TrackedItem.ticker).Nodup ∧
    (∀ i : ℕ, findTickerIdx ctx.tickers (trackSymbol ctx.args) = some i →
      ∃ upd : TrackedItem,
        ts' = ctx.tickers.set i upd ∧
        upd.ticker = some (trackSymbol ctx.args) ∧
        upd.threshold ≠ none ∧ upd.last_price ≠ none) := by
  obtain ⟨q, p, hts⟩ := track_tracked_inv ctx ts' h
  subst hts
  refine ⟨applyTrack_nodup _ _ _ _ _ hu, fun i hi => ?_⟩
  exact ⟨retrackEntry (trackSymbol ctx.args) q p ctx.now,
    by simp [applyTrack, hi], rfl, by simp [retrackEntry],
    by simp [retrackEntry]⟩

/-- C6 witness: re-tracking `btcusdt` over a two-element list yields a
list that still has one entry per symbol. -/
theorem C6_witness : (tsC6W.map TrackedItem.ticker).Nodup :=
  (C6_track_preserves_uniqueness ctxC6W tsC6W (by decide) rfl).1

/-- C9 counterexample: the sole tracked entry carries
`added_at = "2023-01-01T00:00:00"`, yet re-tracking the same symbol
replaces it with a record whose `added_at` is absent — the claim says
`added_at` stays present and unchanged under every later operation. -/
theorem C9_counterexample_retrack_drops_added_at :
    ctxRetrackW.tickers.map TrackedItem.added_at =
      [some "2023-01-01T00:00:00"] ∧
    track ctxRetrackW = .tracked
      [{ ticker := some "BTCUSDT", threshold := some 5,
         last_price := some 50000, added_at := none,
         updated_at := some "2024-01-01T00:00:00" }] :=
  ⟨rfl, rfl⟩

/-- C9 as amended: `added_at` is set when the entry is first created,
and the alert tick never touches it on any path; but re-tracking an
already tracked symbol replaces the whole record with one that carries
`updated_at` and *no* `added_at` — the creation timestamp is dropped,
not preserved. -/
theorem C9_amended_added_at_lifecycle (ts : List TrackedItem)
    (tk : String) (q p : ℚ) (now : String) :
    (findTickerIdx ts tk = none →
      (applyTrack ts tk q p now).map TrackedItem.added_at =
        ts.map TrackedItem.added_at ++ [some now]) ∧
    (∀ i : ℕ, findTickerIdx ts tk = some i →
      applyTrack ts tk q p now = ts.set i (retrackEntry tk q p now) ∧
      (retrackEntry tk q p now).added_at = none) ∧
    (∀ (r : String → Except String ℚ) (it : TrackedItem),
      (checkItem r it).item.added_at = it.added_at) := by
  refine ⟨fun hn => ?_, fun i hi => ⟨by simp [applyTrack, hi], rfl⟩,
    checkItem_added_at⟩
  simp [applyTrack, hn, newEntry]

/-- C9 witness: creating a fresh entry records `added_at`. -/
theorem C9_witness :
    (applyTrack [] "NEWX" 5 1 "T").map TrackedItem.added_at =
      [some "T"] := by
  have h := (C9_amended_added_at_lifecycle [] "NEWX" 5 1 "T").1 rfl
  simpa using h

/-- C10 counterexample: a user subscribed only to `news` is selected for
the digest (non-empty subscription dict) and has a subscription flag set
to true, yet no line is produced and no message is sent — the claim says
a line is appended whenever a category's flag is true and that only a
user with all flags false gets no message. -/
theorem C10_counterexample_news_only_user :
    digestSelected userNewsOnly = true ∧
    userNewsOnly.news = some true ∧
    send_daily_summary_user userNewsOnly digestWorldOk = [] ∧
    digestSent userNewsOnly digestWorldOk = false :=
  ⟨rfl, rfl, rfl, rfl⟩

/-- C10 as amended: digest lines exist only for the `crypto` and
`stocks` categories; a message is sent iff one of those two flags is
true and the corresponding fetch returned (rather than raised) — in
particular a fetch that returned the failure quote `0.0` still yields a
line rendering `0.00` and causes a message, while the `news` flag never
contributes. -/
theorem C10_amended_digest_lines (u : DigestUser) (w : DigestWorld) :
    (digestSent u w = true ↔
      (u.crypto.getD false = true ∧ ∃ p, w.btc = .ok p) ∨
      (u.stocks.getD false = true ∧ ∃ p, w.sber = .ok p)) ∧
    (u.crypto.getD false = true → w.btc = .ok 0 →
      DigestLine.btcLine 0 ∈ send_daily_summary_user u w ∧
      digestSent u w = true) := by
  cases hc : u.crypto.getD false <;> cases hs : u.stocks.getD false <;>
    cases hb : w.btc <;> cases hsb : w.sber <;>
      simp [digestSent, send_daily_summary_user, hc, hs, hb, hsb] <;>
        exact fun h => h.symm

/-- C10 witness: a crypto-only user whose BTC fetch returned the failure
quote `0.0` still gets the Bitcoin line (price `0`) and a message. -/
theorem C10_witness :
    DigestLine.btcLine 0 ∈
      send_daily_summary_user userCryptoOnly digestWorldBtcZero ∧
    digestSent userCryptoOnly digestWorldBtcZero = true :=
  (C10_amended_digest_lines userCryptoOnly digestWorldBtcZero).2 rfl rfl

end FinanceBot
